import Mathlib

/-!
Verification development for the Stella tool-orchestration state machine
(backend/agent/agent.py).

The Python module is shallowly embedded: the LangGraph `AgentState` TypedDict
becomes a structure, LangChain messages become an inductive type, and each
graph node (`agent_node`, `execute_tool_node`, `generate_final_response_node`,
`cleanup_state_node`, `router`, and the graph wiring of `get_agent_app`)
becomes a Lean function over that state.

Modelling conventions, matching how the Python code actually observes values:
* A missing TypedDict key and an empty string are indistinguishable through
  `state.get(...)` truthiness tests, so string-valued state fields use `""`
  for "unset".  Dataframe-valued fields are only ever tested for truthiness
  or parsed back from the JSON produced by `to_json`, so they are modelled as
  `Option Df` (`none` = unset/empty string), with serialisation as identity.
* The external tool collaborators (network fetches, pandas preprocessing, the
  risk model, plotly rendering, the LLM) are out of scope per the spec; they
  are parameters (`ToolEnv`, `LLMEnv`) whose operations return `Except String`
  results, an exception being modelled by its `repr` string.
* Python dictionary updates (`current_state_updates`) become an `Updates`
  record of `Option` fields: `none` = key absent, `some v` = key written.
-/

/-- A pandas dataframe, abstracted to what the orchestrator observes of it:
its column list, the values of the `calendarYear` column in row order
(empty when the column is absent), and its row count. -/
structure Df where
  columns : List String
  calendarYear : List String
  nrows : Nat
deriving DecidableEq, Repr

/-- Pandas `df.empty`: true when either axis has length zero. -/
def Df.isEmpty (d : Df) : Bool :=
  d.nrows = 0 || d.columns.isEmpty

/-- The tool catalog bound to the LLM (`available_tools` in tools.py); these
are exactly the names `execute_tool_node` dispatches on. -/
inductive ToolName
  | search_ticker
  | fetch_data
  | get_stock_news
  | get_company_profile
  | preprocess_data
  | analyze_risks
  | display_raw_data
  | display_processed_data
  | create_dynamic_chart
  | display_price_chart
  | compare_stocks
  | query_research
deriving DecidableEq, Repr

/-- The Python string used for a tool name in error messages. -/
def ToolName.pyName : ToolName → String
  | .search_ticker => "search_ticker"
  | .fetch_data => "fetch_data"
  | .get_stock_news => "get_stock_news"
  | .get_company_profile => "get_company_profile"
  | .preprocess_data => "preprocess_data"
  | .analyze_risks => "analyze_risks"
  | .display_raw_data => "display_raw_data"
  | .display_processed_data => "display_processed_data"
  | .create_dynamic_chart => "create_dynamic_chart"
  | .display_price_chart => "display_price_chart"
  | .compare_stocks => "compare_stocks"
  | .query_research => "query_research"

/-- The untyped args map of a tool call, restricted to the keys the dispatcher
reads.  `none` models an absent key (`tool_args.get(k)` returning `None`). -/
structure ToolArgs where
  company_name : Option String := none
  ticker : Option String := none
  tickers : Option (List String) := none
  metric : Option String := none
  comparison_type : Option String := none
  period_days : Option Nat := none
  chart_type : Option String := none
  x_column : Option String := none
  y_column : Option String := none
  title : Option String := none
  color_column : Option String := none
  query : Option String := none
deriving DecidableEq, Repr

/-- One entry of `AIMessage.tool_calls`. -/
structure ToolCall where
  id : String
  name : ToolName
  args : ToolArgs
deriving DecidableEq, Repr

/-- The LangChain message variants the orchestrator distinguishes.
`tool` carries `tool_call_id` (a `ToolMessage`). -/
inductive Message
  | human (content : String)
  | system (content : String)
  | ai (content : String) (tool_calls : List ToolCall)
  | tool (tool_call_id : String) (content : String)
deriving DecidableEq, Repr

/-- The `tool_call_id` of a message when it is a `ToolMessage`. -/
def Message.toolCallId : Message → Option String
  | .tool cid _ => some cid
  | _ => none

/-- The text content of a message. -/
def Message.content : Message → String
  | .human c => c
  | .system c => c
  | .ai c _ => c
  | .tool _ c => c

/-- Python `isinstance(msg, ToolMessage)`. -/
def Message.isToolMessage : Message → Bool
  | .tool _ _ => true
  | _ => false

/-- The `AgentState` TypedDict of agent.py. -/
structure AgentState where
  input : String := ""
  ticker : String := ""
  tickers : List String := []
  company_name : String := ""
  fetched_df_json : Option Df := none
  processed_df_json : Option Df := none
  analysis : String := ""
  plotly_json : String := ""
  messages : List Message := []
  error : String := ""
deriving DecidableEq, Repr

/-- The partial-state dictionary a LangGraph node returns
(`current_state_updates` in `execute_tool_node`).  `none` = key absent. -/
structure Updates where
  ticker : Option String := none
  tickers : Option (List String) := none
  company_name : Option String := none
  fetched_df_json : Option Df := none
  processed_df_json : Option Df := none
  analysis : Option String := none
  plotly_json : Option String := none
  error : Option String := none
  messages : List Message := []
deriving DecidableEq, Repr

/-- LangGraph merge of the updates returned by a node into the state: every plain
channel is replaced when its key is present, and the `messages` channel uses
the `add_messages` reducer, which appends. -/
def applyUpdates (s : AgentState) (u : Updates) : AgentState :=
  { input := s.input
    ticker := u.ticker.getD s.ticker
    tickers := u.tickers.getD s.tickers
    company_name := u.company_name.getD s.company_name
    fetched_df_json := u.fetched_df_json <|> s.fetched_df_json
    processed_df_json := u.processed_df_json <|> s.processed_df_json
    analysis := u.analysis.getD s.analysis
    plotly_json := u.plotly_json.getD s.plotly_json
    messages := s.messages ++ u.messages
    error := u.error.getD s.error }

/-- Python `a or b` where `a` is `tool_args.get(k)` (possibly absent, and an
empty string is falsy) and `b` a string from the state. -/
def pyOrOpt (a : Option String) (b : String) : String :=
  match a with
  | some s => if s = "" then b else s
  | none => b

/-- Python `a or b or c` with the same truthiness conventions. -/
def pyOr3 (a : Option String) (b c : String) : String :=
  pyOrOpt a (if b = "" then c else b)

/-- Whether `needle` is a prefix of `hay` (on character lists). -/
def startsWithL : List Char → List Char → Bool
  | [], _ => true
  | _ :: _, [] => false
  | a :: as, b :: bs => a == b && startsWithL as bs

/-- Whether `needle` occurs contiguously inside `hay` (on character lists). -/
def occursIn (needle : List Char) : List Char → Bool
  | [] => needle.isEmpty
  | b :: bs => startsWithL needle (b :: bs) || occursIn needle bs

/-- Python `needle in hay` on strings (substring test). -/
def strContainsB (hay needle : String) : Bool :=
  occursIn needle.data hay.data

/-- Python `repr(ValueError(m))` for the exceptions `execute_tool_node` raises. -/
def valueError (m : String) : String :=
  "ValueError(\x27" ++ m ++ "\x27)"

/-- The `error_msg` built by the generic `except` block of
`execute_tool_node`. -/
def genericErrorMsg (name : ToolName) (e : String) : String :=
  "Erreur lors de l\x27exécution de l\x27outil \x27" ++ name.pyName ++ "\x27: " ++ e

/-- The user-friendly text for an `APILimitError` in the `fetch_data`
branch. -/
def apiLimitFriendly : String :=
  "Désolé, il semble que j\x27aie un problème d\x27accès à mon fournisseur de données. Peux-tu réessayer plus tard ?"

/-- Outcome of `_fetch_data_logic`: success, an `APILimitError` (caught
specially), or any other exception (caught by the generic handler). -/
inductive FetchRes
  | ok (df : Df)
  | apiLimit
  | exn (e : String)

/-- The external tool collaborators, as the dispatcher calls them.  Any
exception a collaborator raises is the `error` case, carrying its `repr`.
Chart construction (`px.line` + `pio.to_json`) is folded into the collaborator
call that feeds it, since both live inside the same `try` block and their
output is opaque to the orchestrator. -/
structure ToolEnv where
  search_ticker_logic : Option String → Except String String
  fetch_data_logic : Option String → FetchRes
  fetch_recent_news_logic : String → String → Except String String
  preprocess_data_logic : Df → Except String Df
  analyze_risks_logic : Df → Except String String
  create_dynamic_chart_logic : Df → ToolArgs → Except String String
  fetch_profile_logic : Option String → Except String String
  fetch_price_history_logic : Option String → Nat → Except String Df
  render_price_chart : Df → String → Nat → String
  compare_fundamental_chart : Option (List String) → Option String → Except String String
  compare_price_chart : Option (List String) → Nat → Except String String
  query_research_logic : Option String → Except String String

/-- One iteration of the `for tool_call in action_message.tool_calls` loop in
`execute_tool_node`, up to (but not including) the generic `except` block:
`state` is the original state of the node, `working` the `working_state` copy,
`updates` the `current_state_updates` dictionary so far.  On success it
returns the new `updates`, the new `working_state` and the appended
`ToolMessage` content; `Except.error` is a raised exception (its repr). -/
def runBranch (env : ToolEnv) (state : AgentState) (working : AgentState)
    (updates : Updates) (tc : ToolCall) :
    Except String (Updates × AgentState × String) :=
  match tc.name with
  | .search_ticker =>
    match env.search_ticker_logic tc.args.company_name with
    | .error e => .error e
    | .ok ticker =>
      .ok ({ updates with
              ticker := some ticker,
              company_name := some (tc.args.company_name.getD "") },
           working,
           "[Ticker `" ++ ticker ++ "` trouvé.]")
  | .fetch_data =>
    match env.fetch_data_logic tc.args.ticker with
    | .exn e => .error e
    | .apiLimit =>
      -- inner `except APILimitError`: a failed ToolMessage (JSON payload) and
      -- the user-friendly text written into `current_state_updates["error"]`
      .ok ({ updates with error := some apiLimitFriendly },
           working,
           "\x7b\"error\": \"" ++ apiLimitFriendly ++ "\"\x7d")
    | .ok df =>
      .ok ({ updates with
              fetched_df_json := some df,
              ticker := some (tc.args.ticker.getD "") },
           { working with
              fetched_df_json := some df,
              ticker := tc.args.ticker.getD "" },
           "[Données récupérées avec succès.]")
  | .get_stock_news =>
    -- ticker: the explicit argument, else the ORIGINAL state (not the batch)
    if pyOrOpt tc.args.ticker state.ticker = "" then
      .error (valueError "Impossible de déterminer un ticker pour chercher les nouvelles, ni dans la commande, ni dans le contexte.")
    else
      match env.fetch_recent_news_logic (pyOrOpt tc.args.ticker state.ticker)
              (pyOr3 tc.args.company_name state.company_name (pyOrOpt tc.args.ticker state.ticker)) with
      | .error e => .error e
      | .ok news_summary =>
        .ok ({ updates with
                ticker := some (pyOrOpt tc.args.ticker state.ticker),
                company_name := some (pyOr3 tc.args.company_name state.company_name
                                        (pyOrOpt tc.args.ticker state.ticker)) },
             working,
             news_summary)
  | .preprocess_data =>
    match updates.fetched_df_json <|> working.fetched_df_json with
    | none => .error (valueError "Impossible de prétraiter les données car elles n\x27ont pas encore été récupérées.")
    | some fetched_df =>
      match env.preprocess_data_logic fetched_df with
      | .error e => .error e
      | .ok output =>
        .ok ({ updates with processed_df_json := some output },
             { working with processed_df_json := some output },
             "[Données prétraitées avec succès.]")
  | .analyze_risks =>
    match updates.processed_df_json <|> working.processed_df_json with
    | none => .error (valueError "Impossible de faire une prédiction car les données n\x27ont pas encore été prétraitées.")
    | some processed_df =>
      match env.analyze_risks_logic processed_df with
      | .error e => .error e
      | .ok output =>
        .ok ({ updates with analysis := some output },
             { working with analysis := output },
             output)
  | .create_dynamic_chart =>
    match updates.processed_df_json <|> working.processed_df_json <|>
          updates.fetched_df_json <|> working.fetched_df_json with
    | none => .error (valueError "Aucune donnée disponible pour créer un graphique.")
    | some df_for_chart =>
      match env.create_dynamic_chart_logic df_for_chart tc.args with
      | .error e => .error e
      | .ok chart_json =>
        if strContainsB chart_json "Erreur" then
          .error (valueError chart_json)
        else
          .ok ({ updates with plotly_json := some chart_json },
               working,
               "[Graphique interactif créé.]")
  | .display_raw_data =>
    match updates.fetched_df_json <|> working.fetched_df_json <|> state.fetched_df_json with
    | none => .error (valueError "Aucune donnée disponible à afficher.")
    | some _ => .ok (updates, working, "[Préparation de l\x27affichage des données.]")
  | .display_processed_data =>
    match updates.processed_df_json <|> working.processed_df_json <|> state.processed_df_json with
    | none => .error (valueError "Aucune donnée disponible à afficher.")
    | some _ => .ok (updates, working, "[Préparation de l\x27affichage des données.]")
  | .get_company_profile =>
    match env.fetch_profile_logic tc.args.ticker with
    | .error e => .error e
    | .ok profile_json => .ok (updates, working, profile_json)
  | .display_price_chart =>
    match env.fetch_price_history_logic tc.args.ticker (tc.args.period_days.getD 252) with
    | .error e => .error e
    | .ok price_df =>
      .ok ({ updates with
              plotly_json := some (env.render_price_chart price_df (tc.args.ticker.getD "")
                                     (tc.args.period_days.getD 252)) },
           working,
           "[Graphique de prix créé avec succès.]")
  | .compare_stocks =>
    match (if tc.args.comparison_type.getD "fundamental" = "fundamental" then
             env.compare_fundamental_chart tc.args.tickers tc.args.metric
           else if tc.args.comparison_type.getD "fundamental" = "price" then
             env.compare_price_chart tc.args.tickers (tc.args.period_days.getD 252)
           else
             Except.error (valueError ("Type de comparaison inconnu: " ++ tc.args.comparison_type.getD "fundamental"))) with
    | .error e => .error e
    | .ok chart_json =>
      .ok ({ updates with
              plotly_json := some chart_json,
              tickers := some (tc.args.tickers.getD []) },
           working,
           "[Graphique de comparaison créé.]")
  | .query_research =>
    match env.query_research_logic tc.args.query with
    | .error e => .error e
    | .ok research_result => .ok (updates, working, research_result)

/-- The loop state of `execute_tool_node`.  `errTrace` is instrumentation
(not part of the Python state): entry i records the error message request i
wrote into `current_state_updates["error"]`, or `none` when it left the entry
unchanged. -/
structure BatchCtx where
  working : AgentState
  updates : Updates
  tool_outputs : List Message
  errTrace : List (Option String)

/-- Ghost-trace entry: what the step made of the `error` key. -/
def errStep (old new : Option String) : Option String :=
  if new = old then none else new

/-- One full iteration of the dispatcher loop, including the generic
`except Exception` block (append a `[ERREUR: ...]` `ToolMessage`, overwrite
the `error` key, continue). -/
def execOne (env : ToolEnv) (state : AgentState) (ctx : BatchCtx) (tc : ToolCall) :
    BatchCtx :=
  match runBranch env state ctx.working ctx.updates tc with
  | .ok (u, w, content) =>
    { working := w
      updates := u
      tool_outputs := ctx.tool_outputs ++ [Message.tool tc.id content]
      errTrace := ctx.errTrace ++ [errStep ctx.updates.error u.error] }
  | .error e =>
    let error_msg := genericErrorMsg tc.name e
    { working := ctx.working
      updates := { ctx.updates with error := some error_msg }
      tool_outputs := ctx.tool_outputs ++ [Message.tool tc.id ("[ERREUR: " ++ error_msg ++ "]")]
      errTrace := ctx.errTrace ++ [some error_msg] }

/-- The whole `for` loop of `execute_tool_node` over a batch. -/
def execBatch (env : ToolEnv) (state : AgentState) (tcs : List ToolCall) : BatchCtx :=
  tcs.foldl (execOne env state)
    { working := state, updates := {}, tool_outputs := [], errTrace := [] }

/-- Python `next((msg for msg in reversed(messages) if isinstance(msg, AIMessage) and
msg.tool_calls), None)`: the tool calls of the most recent AIMessage that has
a non-empty `tool_calls` list. -/
def lastAIToolCalls : List Message → Option (List ToolCall)
  | [] => none
  | m :: rest =>
    match lastAIToolCalls rest with
    | some tcs => some tcs
    | none =>
      match m with
      | .ai _ tcs => if tcs.isEmpty then none else some tcs
      | _ => none

/-- Node `execute_tool_node`: find the triggering decision, run every requested
tool in order, and return the update dictionary (whose `messages` entry holds
the collected `ToolMessage`s).  `Except.error` models the `ValueError` raised
when no decision with tool calls exists. -/
def execute_tool_node (env : ToolEnv) (s : AgentState) : Except String Updates :=
  match lastAIToolCalls s.messages with
  | none => .error (valueError "Aucun appel d\x27outil trouvé dans le dernier AIMessage.")
  | some tcs =>
    let ctx := execBatch env s tcs
    .ok { ctx.updates with messages := ctx.tool_outputs }

/-- The nodes of the LangGraph workflow built by `get_agent_app`, plus `stop`
for the END sentinel. -/
inductive GNode
  | agent
  | execute_tool
  | generate_final_response
  | prepare_data_display
  | prepare_chart_display
  | prepare_news_display
  | prepare_profile_display
  | handle_error
  | cleanup_state
  | stop
deriving DecidableEq, Repr

/-- The `router` function of agent.py.  `Except.error` models the
`IndexError` that `messages[-1]` (resp. `tool_calls[-1]`) would raise on an
empty list; the error check precedes any list access, exactly as in the
source. -/
def router (s : AgentState) : Except String GNode :=
  if s.error ≠ "" then .ok .handle_error
  else
    match s.messages.getLast? with
    | none => .error "IndexError"
    | some last_message =>
      match last_message with
      | .ai _ tool_calls =>
        if tool_calls.isEmpty then .ok .stop else .ok .execute_tool
      | _ =>
        match lastAIToolCalls s.messages with
        | none => .ok .stop
        | some remaining_tool_calls =>
          -- executed = count of ToolMessages in the whole log
          if (s.messages.filter Message.isToolMessage).length < remaining_tool_calls.length then
            .ok .execute_tool
          else
            match remaining_tool_calls.getLast? with
            | none => .error "IndexError"
            | some last_tc =>
              match last_tc.name with
              | .analyze_risks => .ok .generate_final_response
              | .compare_stocks => .ok .prepare_chart_display
              | .display_price_chart => .ok .prepare_chart_display
              | .display_raw_data => .ok .prepare_data_display
              | .display_processed_data => .ok .prepare_data_display
              | .create_dynamic_chart => .ok .prepare_chart_display
              | .get_stock_news => .ok .prepare_news_display
              | .get_company_profile => .ok .prepare_profile_display
              | _ => .ok .agent

/-- The edge structure wired in `get_agent_app`: conditional edges out of
`agent` (branch map `execute_tool`/`handle_error`/`__end__`) and out of
`execute_tool` (branch map of every destination except `execute_tool`
itself), static edges from each finalizer and from `handle_error` into
`cleanup_state`, and `cleanup_state → END`.  A router result missing from a
branch map is a runtime `KeyError`; END has no outgoing edge. -/
def graphStep (s : AgentState) : GNode → Except String GNode
  | .agent =>
    match router s with
    | .error e => .error e
    | .ok d =>
      if d = .execute_tool ∨ d = .handle_error ∨ d = .stop then .ok d
      else .error "KeyError"
  | .execute_tool =>
    match router s with
    | .error e => .error e
    | .ok d =>
      if d = .execute_tool then .error "KeyError" else .ok d
  | .generate_final_response => .ok .cleanup_state
  | .prepare_data_display => .ok .cleanup_state
  | .prepare_chart_display => .ok .cleanup_state
  | .prepare_news_display => .ok .cleanup_state
  | .prepare_profile_display => .ok .cleanup_state
  | .handle_error => .ok .cleanup_state
  | .cleanup_state => .ok .stop
  | .stop => .error "END has no outgoing edge"

/-- The fixed tool-name → next-step table (§6 of the specification),
written over the tool names of the implementation: assess_risk = analyze_risks,
fetch_fundamentals = fetch_data, resolve_ticker = search_ticker, preprocess =
preprocess_data, build_chart = create_dynamic_chart, fetch_price_series =
display_price_chart, compare_price_series / compare_fundamental_series =
compare_stocks, fetch_raw_table / fetch_processed_table = display_raw_data /
display_processed_data, fetch_news = get_stock_news, fetch_profile =
get_company_profile. -/
def finalizerFor : ToolName → GNode
  | .analyze_risks => .generate_final_response
  | .compare_stocks => .prepare_chart_display
  | .display_price_chart => .prepare_chart_display
  | .create_dynamic_chart => .prepare_chart_display
  | .display_raw_data => .prepare_data_display
  | .display_processed_data => .prepare_data_display
  | .get_stock_news => .prepare_news_display
  | .get_company_profile => .prepare_profile_display
  | .search_ticker => .agent
  | .fetch_data => .agent
  | .preprocess_data => .agent
  | .query_research => .agent

/-- The decision model: `llm.bind_tools(available_tools).invoke(...)`.  Its
single operation either returns one AIMessage or raises (transport/model
failure, modelled by the `repr` string of the exception). -/
structure LLMEnv where
  invoke : List Message → Except String Message

/-- The static instruction text handed to the model first.  Its content is
prompt wording, out of scope per the spec; only its position in the message
list matters here. -/
def system_prompt : String :=
  "Ton nom est Stella. Tu es une assistante experte financière."

/-- Python `state.get("processed_df_json") or state.get("fetched_df_json")`:
the dataset whose column set is injected into the context. -/
def dataToInspect (s : AgentState) : Option Df :=
  s.processed_df_json <|> s.fetched_df_json

/-- The last `compare_stocks` tool call in the history, scanning messages
from the most recent backwards (an AIMessage whose tool_calls hold no
`compare_stocks` entry does not stop the scan). -/
def findCompareCall : List Message → Option ToolCall
  | [] => none
  | m :: rest =>
    match findCompareCall rest with
    | some tc => some tc
    | none =>
      match m with
      | .ai _ tcs => tcs.find? (fun tc => tc.name == ToolName.compare_stocks)
      | _ => none

/-- The dynamically injected context parts of `agent_node`, in source order:
available columns, the active comparison (with its last-used type, metric and
period when a previous `compare_stocks` call exists), or the active
single-ticker session. -/
def contextParts (s : AgentState) : List String :=
  let columnsPart :=
    match dataToInspect s with
    | some df => ["Des données sont disponibles avec les colonnes : " ++ toString df.columns]
    | none => []
  let comparisonPart :=
    if s.tickers.length > 1 then
      ["COMPARAISON EN COURS : " ++ toString s.tickers] ++
      (match findCompareCall s.messages with
       | some tc =>
         let comparison_type := tc.args.comparison_type.getD "price"
         let metric := tc.args.metric.getD "price"
         let period_days := tc.args.period_days.getD 252
         ["Type de comparaison actuelle : " ++ comparison_type,
          "Métrique comparée : " ++ metric] ++
         (if comparison_type = "price" then ["Période : " ++ toString period_days ++ " jours"] else []) ++
         ["RÈGLES POUR LES DEMANDES DE SUIVI : (suite des règles de suivi)"]
       | none => [])
    else []
  let tickerPart :=
    if s.ticker ≠ "" ∧ s.tickers.isEmpty then
      ["ANALYSE INDIVIDUELLE EN COURS : " ++ s.ticker,
       "Si l\x27utilisateur demande d\x27analyser un nouveau ticker, tu DOIS faire une nouvelle analyse complète avec fetch_data, preprocess_data, analyze_risks."]
    else []
  columnsPart ++ comparisonPart ++ tickerPart

/-- The full message list `agent_node` hands to the model: system prompt,
then the dynamic context block when any context part exists, then the
conversation history. -/
def buildAgentMessages (s : AgentState) : List Message :=
  let ctx := contextParts s
  [Message.system system_prompt] ++
  (if ctx.isEmpty then []
   else [Message.system ("\n\n--- CONTEXTE ACTUEL ---\n" ++ String.intercalate "\n" ctx ++ "\n---------------------------------\n")]) ++
  s.messages

/-- Node `agent_node`: build the evaluation context and invoke the model.  Note
that the model call is NOT wrapped in any try/except in the source: a raised
exception leaves the node as an exception (`Except.error`), and a successful
call returns only the new assistant message (the `error` key untouched).  The
only try/except inside `agent_node` guards the column-context dataframe
parse, and it merely logs (our dataframe model cannot fail to parse). -/
def agent_node (env : LLMEnv) (s : AgentState) : Except String Updates :=
  match env.invoke (buildAgentMessages s) with
  | .ok response => .ok { messages := [response] }
  | .error e => .error e

/-- Node `cleanup_state_node`: reset the ephemeral per-turn keys, keep everything
else. -/
def cleanup_state_node (_s : AgentState) : Updates :=
  { analysis := some "", plotly_json := some "", error := some "" }

/-- The ticker display default of `generate_final_response_node` (the
state.get default when the ticker key is unset). -/
def displayTicker (s : AgentState) : String :=
  if s.ticker = "" then "l\x27action" else s.ticker

/-- Python `state.get("analysis", "inconnu")` in `generate_final_response_node`. -/
def displayAnalysis (s : AgentState) : String :=
  if s.analysis = "" then "inconnu" else s.analysis

/-- Decimal accumulator for `parseYear`. -/
def parseYearAux : List Char → Nat → Option Nat
  | [], acc => some acc
  | c :: cs, acc =>
    if c.isDigit then parseYearAux cs (acc * 10 + (c.toNat - 48)) else none

/-- Python `int(...)` applied to a fiscal-year label: the labels are
non-negative decimal strings, so `int` succeeds exactly on non-empty
all-digit strings and returns their value. -/
def parseYear (s : String) : Option Nat :=
  if s.data.isEmpty then none else parseYearAux s.data 0

/-- Extraction of the latest fiscal-year label and the following year from
the processed dataset: defaults ("récentes", "prochaine") when the dataset is
absent, empty, or lacks a `calendarYear` column; otherwise the last value of
that column and `str(int(latest) + 1)`.  When `int(...)` fails the exception
is caught after `latest_year_str` was already assigned, so only the second
component keeps its default (Python `int` is modelled by `parseYear`). -/
def latestYears (pdf : Option Df) : String × String :=
  match pdf with
  | none => ("récentes", "prochaine")
  | some df =>
    if !df.isEmpty && df.columns.contains "calendarYear" then
      match df.calendarYear.getLast? with
      | some latest_year_str =>
        match parseYear latest_year_str with
        | some n => (latest_year_str, toString (n + 1))
        | none => (latest_year_str, "prochaine")
      | none => ("récentes", "prochaine")
    else ("récentes", "prochaine")

/-- The `_analyze_risks_logic` verdict string for a high risk. -/
def hiRiskVerdict : String := "Risque Élevé Détecté"

/-- The `_analyze_risks_logic` verdict string for no extreme risk. -/
def noRiskVerdict : String := "Aucun Risque Extrême Détecté"

/-- Fixed segments of the high-risk answer (the f-string around
`ticker.upper()`, `latest_year_str` and `next_year_str`). -/
def hiRiskSegA : String := "⚠️ **Attention !** Pour l\x27action `"

def hiRiskSegB : String := "`, en se basant sur les données de `"

def hiRiskSegC : String :=
  "`(dernières données disponibles), mon analyse a détecté des signaux indiquant un **risque élevé de sous-performance pour l\x27année à venir (`"

def hiRiskSegD : String :=
  "`)**.\n\nMon modèle est particulièrement confiant dans cette évaluation. Je te conseille la plus grande prudence."

/-- Fixed segments of the no-extreme-risk answer. -/
def noRiskSegA : String := "Pour l\x27action `"

def noRiskSegB : String := "`, en se basant sur les données de `"

def noRiskSegC : String :=
  "`(dernières données disponibles), mon analyse n\x27a **pas détecté de signaux de danger extrême pour l\x27année à venir (`"

def noRiskSegD : String :=
  "`)**.\n\n**Important :** Cela ne signifie pas que c\x27est un bon investissement. Cela veut simplement dire que mon modèle, spécialisé dans la détection de signaux très négatifs, n\x27en a pas trouvé ici. Mon rôle est de t\x27aider à éviter une erreur évidente, pas de te garantir un succès."

/-- The defensive fallback for a verdict outside the two-value domain. -/
def uninterpretableText (ticker : String) : String :=
  "L\x27analyse des données pour `" ++ ticker.toUpper ++
  "` a été effectuée, mais le résultat de la prédiction n\x27a pas pu être interprété."

/-- The textual part of the final risk answer, by verdict: the warning text,
the no-extreme-risk text, or the defensive fallback for any other value. -/
def riskVerdictText (ticker analysis latest next : String) : String :=
  if analysis = hiRiskVerdict then
    hiRiskSegA ++ ticker.toUpper ++ hiRiskSegB ++ latest ++ hiRiskSegC ++ next ++ hiRiskSegD
  else if analysis = noRiskVerdict then
    noRiskSegA ++ ticker.toUpper ++ noRiskSegB ++ latest ++ noRiskSegC ++ next ++ noRiskSegD
  else
    uninterpretableText ticker

/-- The columns required by the secondary growth-vs-valuation chart. -/
def metricsToPlot : List String :=
  ["calendarYear", "revenuePerShare_YoY_Growth", "earningsYield"]

/-- The opaque plotly JSON of the growth-vs-valuation figure; its concrete
bytes are chart styling, out of scope — only its presence matters. -/
def growthValuationChart (ticker : String) (_df : Df) : String :=
  "growth_valuation_chart:" ++ ticker.toUpper

/-- The suffix appended to the verdict when the chart could be produced. -/
def chartAddedRemark : String :=
  "\n\n**Voici une visualisation de sa croissance par rapport à sa valorisation :**"

/-- The suffix appended to the verdict when the dataset or the required
columns are missing. -/
def missingChartRemark : String :=
  "\n\n(Impossible de générer le graphique de synthèse Croissance/Valorisation : données ou colonnes manquantes)."

/-- The final AIMessage of the risk path, as content plus the optional
`plotly_json` attribute attached via `setattr`. -/
structure FinalResponse where
  content : String
  plotly_json : Option String
deriving DecidableEq, Repr

/-- Python `not df.empty and all(col in plot_cols for col in metrics_to_plot)`:
the guard of the secondary chart. -/
def chartColsOk (df : Df) : Bool :=
  !df.isEmpty && metricsToPlot.all (fun c => df.columns.contains c)

/-- The chart section of the final answer: the suffix appended to the verdict
text, and the chart attachment (if any).  With no dataset, nothing is
appended and nothing attached; with all required columns, the chart and its
introduction; otherwise the missing-chart remark and no chart. -/
def chartSection (ticker : String) (pdf : Option Df) : String × Option String :=
  match pdf with
  | none => ("", none)
  | some df =>
    if chartColsOk df then (chartAddedRemark, some (growthValuationChart ticker df))
    else (missingChartRemark, none)

/-- Node `generate_final_response_node`: build the verdict text from the analysis
result and the latest fiscal year, then attempt the secondary
growth-vs-valuation chart via `chartSection`. -/
def generate_final_response_node (s : AgentState) : FinalResponse :=
  { content := riskVerdictText (displayTicker s) (displayAnalysis s)
      (latestYears s.processed_df_json).1 (latestYears s.processed_df_json).2
      ++ (chartSection (displayTicker s) s.processed_df_json).1
    plotly_json := (chartSection (displayTicker s) s.processed_df_json).2 }

/-- Substring containment as a proposition, for statements about produced
messages. -/
def strContains (hay needle : String) : Prop :=
  ∃ pre post, pre ++ needle.data ++ post = hay.data

/-- The last value written into the `error` key by a sequence of per-request
writes (`none` = no write): Python dictionary assignment, last writer wins. -/
def lastSome (l : List (Option String)) : Option String :=
  (l.filterMap id).getLast?

/-- The input-resolution priority the specification claims for the news ticker, as §4.2 states
it: (1) results already produced by earlier requests in this batch, (2) the
persisted ConversationState, (3) the explicit arguments of the request.
Modelled from the spec for comparison against the implementation. -/
def specTickerPriority (batchResult : Option String) (stateTicker : String)
    (argTicker : Option String) : String :=
  match batchResult with
  | some t => t
  | none => if stateTicker ≠ "" then stateTicker else argTicker.getD ""

/-- A small processed dataset used by concrete runs below. -/
def testDf : Df :=
  { columns := ["calendarYear", "roe"], calendarYear := ["2021", "2022"], nrows := 2 }

/-- A deterministic collaborator environment for concrete runs: every
operation succeeds with a recognisable value. -/
def testEnv : ToolEnv :=
  { search_ticker_logic := fun cn => .ok ("TICK-" ++ cn.getD "")
    fetch_data_logic := fun t =>
      match t with
      | some _ => .ok testDf
      | none => .exn "TypeError(\x27ticker must be a string\x27)"
    fetch_recent_news_logic := fun t _cn => .ok ("news:" ++ t)
    preprocess_data_logic := fun df =>
      .ok { df with columns := df.columns ++ ["revenuePerShare_YoY_Growth", "earningsYield"] }
    analyze_risks_logic := fun _ => .ok hiRiskVerdict
    create_dynamic_chart_logic := fun _ _ => .ok "dynamic_chart_json"
    fetch_profile_logic := fun t => .ok ("profile:" ++ t.getD "")
    fetch_price_history_logic := fun t _ =>
      match t with
      | some _ => .ok testDf
      | none => .error "TypeError(\x27ticker must be a string\x27)"
    render_price_chart := fun _ t p => "price_chart:" ++ t ++ ":" ++ toString p
    compare_fundamental_chart := fun _ _ => .ok "fundamental_comparison_chart"
    compare_price_chart := fun _ _ => .ok "price_comparison_chart"
    query_research_logic := fun _ => .ok "research_excerpt" }

/-- Batch for the C1 witness: fetch then preprocess, as one decision. -/
def tcsBatch1 : List ToolCall :=
  [{ id := "call_f1", name := .fetch_data, args := { ticker := some "XOM" } },
   { id := "call_p1", name := .preprocess_data, args := {} }]

/-- State for the C1 witness: a decision carrying `tcsBatch1`. -/
def stBatch1 : AgentState :=
  { messages := [.human "Analyse XOM",
                 .ai "Je récupère puis prépare les données." tcsBatch1] }

/-- Batch for the C2 witness: the first request fails (no ticker anywhere),
the second succeeds. -/
def tcsBatch2 : List ToolCall :=
  [{ id := "call_n1", name := .get_stock_news, args := {} },
   { id := "call_s1", name := .search_ticker, args := { company_name := some "Apple" } }]

/-- State for the C2 witness: no persisted ticker, so the news request
raises. -/
def stBatch2 : AgentState :=
  { messages := [.human "Des actualités ?",
                 .ai "Je cherche des actualités puis le ticker." tcsBatch2] }

/-- State for the C3 witness: an error is set. -/
def stErr : AgentState :=
  { messages := [.human "Analyse ZZZZ"], error := "Erreur lors de l\x27exécution de l\x27outil \x27fetch_data\x27: NotFound(\x27ZZZZ\x27)" }

/-- A decision model whose call always fails with a transport error. -/
def failLLM : LLMEnv :=
  { invoke := fun _ => .error "APITimeoutError(\x27Request timed out.\x27)" }

/-- A second failing decision model, for the C4 witness. -/
def failLLM2 : LLMEnv :=
  { invoke := fun _ => .error "APIConnectionError(\x27Connection error.\x27)" }

/-- State handed to the failing decision model. -/
def stAsk : AgentState :=
  { messages := [.human "Analyse AAPL"] }

/-- The news request of the C5 counterexample: an explicit ticker argument
that differs from the persisted one. -/
def tcNews : ToolCall :=
  { id := "call_news_1", name := .get_stock_news, args := { ticker := some "NVDA" } }

/-- State of the C5 counterexample: persisted ticker "AAPL", request argument
"NVDA". -/
def stNews : AgentState :=
  { ticker := "AAPL",
    messages := [.human "Des actus NVIDIA ?", .ai "Je regarde les actualités." [tcNews]] }

/-- The completed risk batch of the C6 witness. -/
def tcsBatch6 : List ToolCall :=
  [{ id := "call_f6", name := .fetch_data, args := { ticker := some "XOM" } },
   { id := "call_p6", name := .preprocess_data, args := {} },
   { id := "call_r6", name := .analyze_risks, args := {} }]

/-- State of the C6 witness: every request of the batch already has its
`ToolMessage`. -/
def stBatch6 : AgentState :=
  { messages := [.human "Analyse XOM",
                 .ai "Analyse complète." tcsBatch6,
                 .tool "call_f6" "[Données récupérées avec succès.]",
                 .tool "call_p6" "[Données prétraitées avec succès.]",
                 .tool "call_r6" hiRiskVerdict] }

/-- State of the C7 counterexample: the decision engine answered directly
(an AIMessage with no tool calls), no error set. -/
def stDirect : AgentState :=
  { messages := [.human "Bonjour !", .ai "Salut ! Je suis Stella." []] }

/-- Processed dataset of the C9 witness: latest fiscal year 2022, with the
derived series present. -/
def dfRisk : Df :=
  { columns := ["calendarYear", "revenuePerShare_YoY_Growth", "earningsYield"],
    calendarYear := ["2020", "2021", "2022"], nrows := 3 }

/-- State of the C9 witness: high-risk verdict over `dfRisk`. -/
def stRisk : AgentState :=
  { ticker := "XOM", analysis := hiRiskVerdict, processed_df_json := some dfRisk }

/-- State for the C9 witness of the defensive branch: an out-of-domain
verdict value. -/
def stBadVerdict : AgentState :=
  { ticker := "XOM", analysis := "42", processed_df_json := some dfRisk }

/-- Processed dataset missing the `earningsYield` derived series. -/
def dfNoYield : Df :=
  { columns := ["calendarYear", "revenuePerShare_YoY_Growth"],
    calendarYear := ["2021", "2022"], nrows := 2 }

/-- State of the C10 counterexample: a verdict plus a dataset lacking one of
the two chart series. -/
def stNoYield : AgentState :=
  { ticker := "AAPL", analysis := noRiskVerdict, processed_df_json := some dfNoYield }

theorem lastSome_append_none (t : List (Option String)) :
    lastSome (t ++ [none]) = lastSome t := by
  simp [lastSome]

theorem lastSome_append_some (t : List (Option String)) (e : String) :
    lastSome (t ++ [some e]) = some e := by
  simp [lastSome]

/-- A successful dispatcher branch either leaves the `error` key of
`current_state_updates` untouched, or (the `APILimitError` path of
`fetch_data`) sets it to the user-friendly text while appending the JSON
payload as the ToolMessage content. -/
theorem runBranch_ok_error_content (env : ToolEnv) (st w : AgentState)
    (u : Updates) (tc : ToolCall) :
    ∀ r, runBranch env st w u tc = Except.ok r →
      r.1.error = u.error ∨
      (r.1.error = some apiLimitFriendly ∧
       r.2.2 = "\x7b\"error\": \"" ++ apiLimitFriendly ++ "\"\x7d") := by
  intro r h
  unfold runBranch at h
  repeat' split at h
  all_goals first
    | exact Except.noConfusion h
    | (injection h with h2; subst h2; left; rfl)
    | (injection h with h2; subst h2; right; exact ⟨rfl, rfl⟩)

/-- Each loop iteration appends exactly one `ToolMessage` tagged with the
request id, and exactly one ghost-trace entry; whenever the iteration
recorded an error message, that message occurs verbatim inside the appended
ToolMessage content. -/
theorem execOne_step (env : ToolEnv) (st : AgentState) (ctx : BatchCtx) (tc : ToolCall) :
    ∃ (m : Message) (o : Option String),
      (execOne env st ctx tc).tool_outputs = ctx.tool_outputs ++ [m] ∧
      (execOne env st ctx tc).errTrace = ctx.errTrace ++ [o] ∧
      m.toolCallId = some tc.id ∧
      (∀ e, o = some e → strContains m.content e) := by
  unfold execOne
  cases hr : runBranch env st ctx.working ctx.updates tc with
  | error e =>
    refine ⟨_, _, rfl, rfl, rfl, ?_⟩
    intro e' he'
    injection he' with he2
    subst he2
    exact ⟨"[ERREUR: ".data, "]".data,
      by simp [Message.content, String.data_append, List.append_assoc]⟩
  | ok r =>
    obtain ⟨u, w, c⟩ := r
    refine ⟨_, _, rfl, rfl, rfl, ?_⟩
    intro e he
    unfold errStep at he
    by_cases hu : u.error = ctx.updates.error
    · rw [if_pos hu] at he
      exact Option.noConfusion he
    · rw [if_neg hu] at he
      rcases runBranch_ok_error_content env st ctx.working ctx.updates tc _ hr with h1 | ⟨h1, h2⟩
      · exact absurd h1 hu
      · have h1' : u.error = some apiLimitFriendly := h1
        have h2' : c = "\x7b\"error\": \"" ++ apiLimitFriendly ++ "\"\x7d" := h2
        rw [h1'] at he
        injection he with he2
        subst he2
        rw [Message.content, h2']
        exact ⟨"\x7b\"error\": \"".data, "\"\x7d".data,
          by simp [Message.content, String.data_append, List.append_assoc]⟩

/-- Full description of the dispatcher loop: one (ToolMessage, ghost error)
pair per request, in request order, each message tagged with its request id,
and each recorded failure carried inside its own message. -/
theorem execLoop_desc (env : ToolEnv) (st : AgentState) :
    ∀ (tcs : List ToolCall) (ctx : BatchCtx),
      ∃ steps : List (Message × Option String),
        (tcs.foldl (execOne env st) ctx).tool_outputs
          = ctx.tool_outputs ++ steps.map Prod.fst ∧
        (tcs.foldl (execOne env st) ctx).errTrace
          = ctx.errTrace ++ steps.map Prod.snd ∧
        (steps.map fun p => p.1.toolCallId) = tcs.map (fun tc => some tc.id) ∧
        (∀ p ∈ steps, ∀ e, p.2 = some e → strContains p.1.content e)
  | [], ctx => ⟨[], by simp, by simp, by simp, by simp⟩
  | tc :: rest, ctx => by
    obtain ⟨m, o, h1, h2, h3, h4⟩ := execOne_step env st ctx tc
    obtain ⟨steps, g1, g2, g3, g4⟩ := execLoop_desc env st rest (execOne env st ctx tc)
    refine ⟨(m, o) :: steps, ?_, ?_, ?_, ?_⟩
    · rw [List.foldl_cons, g1, h1]; simp
    · rw [List.foldl_cons, g2, h2]; simp
    · simp only [List.map_cons, g3, h3]
    · intro p hp e he
      rcases List.mem_cons.mp hp with hp | hp
      · subst hp; exact h4 e he
      · exact g4 p hp e he

/-- One loop iteration preserves the invariant "the `error` entry of
`current_state_updates` is the last recorded failure". -/
theorem execOne_error_inv (env : ToolEnv) (st : AgentState) (ctx : BatchCtx)
    (tc : ToolCall) (h : ctx.updates.error = lastSome ctx.errTrace) :
    (execOne env st ctx tc).updates.error
      = lastSome ((execOne env st ctx tc).errTrace) := by
  unfold execOne
  cases hr : runBranch env st ctx.working ctx.updates tc with
  | error e => simp [lastSome_append_some]
  | ok r =>
    obtain ⟨u, w, c⟩ := r
    show u.error = lastSome (ctx.errTrace ++ [errStep ctx.updates.error u.error])
    by_cases hu : u.error = ctx.updates.error
    · rw [errStep, if_pos hu, lastSome_append_none, hu, h]
    · rcases runBranch_ok_error_content env st ctx.working ctx.updates tc _ hr with h1 | ⟨h1, _⟩
      · exact absurd h1 hu
      · have h1' : u.error = some apiLimitFriendly := h1
        rw [errStep, if_neg hu, h1', lastSome_append_some]

/-- The loop-level version of the last-failure invariant. -/
theorem execLoop_error_inv (env : ToolEnv) (st : AgentState) :
    ∀ (tcs : List ToolCall) (ctx : BatchCtx),
      ctx.updates.error = lastSome ctx.errTrace →
      (tcs.foldl (execOne env st) ctx).updates.error
        = lastSome ((tcs.foldl (execOne env st) ctx).errTrace)
  | [], _, h => h
  | tc :: rest, ctx, h =>
    execLoop_error_inv env st rest (execOne env st ctx tc) (execOne_error_inv env st ctx tc h)

/-- C1: executing a batch of n tool requests carried by one AssistantDecision
through `execute_tool_node` appends exactly n ToolMessages, in request order,
each tagged with the `tool_call_id` of the request it answers.  (The equality
of the `toolCallId` maps forces: same length, ToolMessage shape for every
entry, request order, and the correct id at every position.) -/
theorem C1_dispatcher_one_result_per_request (env : ToolEnv) (st : AgentState)
    (tcs : List ToolCall) (h : lastAIToolCalls st.messages = some tcs) :
    ∃ u, execute_tool_node env st = Except.ok u ∧
      u.messages.map Message.toolCallId = tcs.map (fun tc => some tc.id) := by
  unfold execute_tool_node
  rw [h]
  refine ⟨_, rfl, ?_⟩
  show (execBatch env st tcs).tool_outputs.map Message.toolCallId = _
  obtain ⟨steps, g1, _, g3, _⟩ := execLoop_desc env st tcs
      { working := st, updates := {}, tool_outputs := [], errTrace := [] }
  unfold execBatch
  rw [g1]
  simpa [List.map_map] using g3

/-- C1 witness: a concrete two-request batch (fetch then preprocess) under a
concrete environment. -/
theorem C1_dispatcher_one_result_per_request_witness :
    lastAIToolCalls stBatch1.messages = some tcsBatch1 ∧
    ∃ u, execute_tool_node testEnv stBatch1 = Except.ok u ∧
      u.messages.map Message.toolCallId = tcsBatch1.map (fun tc => some tc.id) :=
  ⟨rfl, C1_dispatcher_one_result_per_request testEnv stBatch1 tcsBatch1 rfl⟩

/-- C2: for every batch, every request gets its ToolMessage even when earlier
requests failed (one step per request, ids in order); the ToolMessage of a failing
request carries its error text verbatim; the `error` entry of the dispatcher
is the LAST recorded failure of the batch (later failures overwrite earlier
ones), and the `error` field of the merged state equals that message. -/
theorem C2_batch_failure_containment (env : ToolEnv) (st : AgentState)
    (tcs : List ToolCall) (h : lastAIToolCalls st.messages = some tcs) :
    ∃ u, execute_tool_node env st = Except.ok u ∧
      ∃ steps : List (Message × Option String),
        steps.length = tcs.length ∧
        u.messages = steps.map Prod.fst ∧
        (steps.map fun p => p.1.toolCallId) = tcs.map (fun tc => some tc.id) ∧
        (∀ p ∈ steps, ∀ e, p.2 = some e → strContains p.1.content e) ∧
        u.error = lastSome (steps.map Prod.snd) ∧
        (∀ e, lastSome (steps.map Prod.snd) = some e → (applyUpdates st u).error = e) := by
  unfold execute_tool_node
  rw [h]
  refine ⟨_, rfl, ?_⟩
  obtain ⟨steps, g1, g2, g3, g4⟩ := execLoop_desc env st tcs
      { working := st, updates := {}, tool_outputs := [], errTrace := [] }
  have hue : (execBatch env st tcs).updates.error = lastSome (steps.map Prod.snd) := by
    have herr := execLoop_error_inv env st tcs
        { working := st, updates := {}, tool_outputs := [], errTrace := [] } rfl
    unfold execBatch
    rw [herr, g2]
    simp
  have hlen : steps.length = tcs.length := by
    have := congrArg List.length g3
    simpa using this
  refine ⟨steps, hlen, ?_, g3, g4, hue, ?_⟩
  · show (execBatch env st tcs).tool_outputs = _
    unfold execBatch
    rw [g1]
    simp
  · intro e he
    show ((execBatch env st tcs).updates.error).getD st.error = e
    rw [hue, he]
    rfl

/-- C2 witness: a concrete batch whose first request fails (no ticker found
anywhere) and whose second succeeds. -/
theorem C2_batch_failure_containment_witness :
    lastAIToolCalls stBatch2.messages = some tcsBatch2 ∧
    ∃ u, execute_tool_node testEnv stBatch2 = Except.ok u ∧
      ∃ steps : List (Message × Option String),
        steps.length = tcsBatch2.length ∧
        u.messages = steps.map Prod.fst ∧
        (steps.map fun p => p.1.toolCallId) = tcsBatch2.map (fun tc => some tc.id) ∧
        (∀ p ∈ steps, ∀ e, p.2 = some e → strContains p.1.content e) ∧
        u.error = lastSome (steps.map Prod.snd) ∧
        (∀ e, lastSome (steps.map Prod.snd) = some e → (applyUpdates stBatch2 u).error = e) :=
  ⟨rfl, C2_batch_failure_containment testEnv stBatch2 tcsBatch2 rfl⟩

/-- C3: whenever the `error` field of the state is non-empty, the router chooses
the error handler, before looking at any message — no tool dispatch, no
finalizer and no END can be chosen while an error is set. -/
theorem C3_error_short_circuits_router (s : AgentState) (h : s.error ≠ "") :
    router s = Except.ok GNode.handle_error := by
  unfold router
  rw [if_pos h]

/-- C3 witness: a state carrying a fetch failure routes to the error
handler. -/
theorem C3_error_short_circuits_router_witness :
    router stErr = Except.ok GNode.handle_error :=
  C3_error_short_circuits_router stErr (by decide)

/-- C4 counterexample: `agent_node` has no try/except around the model call,
so a transport failure leaves the node as a raised exception instead of being
converted into the `error` field of the state — the claim "never propagated as an
exception past this component" is false. -/
theorem C4_model_failure_propagates_cex :
    agent_node failLLM stAsk = Except.error "APITimeoutError(\x27Request timed out.\x27)" :=
  rfl

/-- C4 amended: a transport/model failure raised by the model call propagates
out of `agent_node` unchanged (it is never converted into `lastError`), and a
successful call returns only the new assistant message, with the `error` key
untouched. -/
theorem C4_model_failure_amended (env : LLMEnv) (s : AgentState) :
    (∀ e, env.invoke (buildAgentMessages s) = Except.error e →
        agent_node env s = Except.error e) ∧
    (∀ r, env.invoke (buildAgentMessages s) = Except.ok r →
        agent_node env s = Except.ok { messages := [r] } ∧
        ({ messages := [r] } : Updates).error = none) := by
  constructor
  · intro e h
    unfold agent_node
    rw [h]
  · intro r h
    unfold agent_node
    rw [h]
    exact ⟨rfl, rfl⟩

/-- C4 witness: a concrete failing model call propagates its exception. -/
theorem C4_model_failure_amended_witness :
    agent_node failLLM2 stAsk = Except.error "APIConnectionError(\x27Connection error.\x27)" :=
  (C4_model_failure_amended failLLM2 stAsk).1 _ rfl

/-- C5 counterexample: the claimed resolution priority (batch results, then
persisted state, then explicit arguments) predicts the persisted ticker
"AAPL" for a news request carrying explicit argument "NVDA", but the
dispatcher resolves the explicit argument FIRST and uses "NVDA". -/
theorem C5_resolution_priority_cex :
    (∃ u, execute_tool_node testEnv stNews = Except.ok u ∧
      u.ticker = some "NVDA" ∧
      u.messages = [Message.tool "call_news_1" "news:NVDA"]) ∧
    specTickerPriority none stNews.ticker tcNews.args.ticker = "AAPL" ∧
    ("NVDA" : String) ≠ "AAPL" := by
  refine ⟨⟨_, rfl, rfl, rfl⟩, by decide, by decide⟩

/-- C5 amended: the dataset inputs (the raw dataset for `preprocess_data`,
via `analyze_risks` analogously) are resolved from batch-produced results
first and then from the state carried into the batch, never from the
arguments of the request; the news ticker is resolved from the explicit
argument of the request FIRST and only then from the persisted state, and never from
earlier batch results. -/
theorem C5_resolution_priority_amended :
    (∀ (env : ToolEnv) (s : AgentState) (t : String) (dfNew dfOut : Df)
        (id1 id2 : String) (a2 : ToolArgs),
        env.fetch_data_logic (some t) = FetchRes.ok dfNew →
        env.preprocess_data_logic dfNew = Except.ok dfOut →
        (execBatch env s
            [{ id := id1, name := .fetch_data, args := { ticker := some t } },
             { id := id2, name := .preprocess_data, args := a2 }]).updates.processed_df_json
          = some dfOut) ∧
    (∀ (env : ToolEnv) (s : AgentState) (dfOld dfOut : Df) (id1 : String) (a : ToolArgs),
        s.fetched_df_json = some dfOld →
        env.preprocess_data_logic dfOld = Except.ok dfOut →
        (execBatch env s
            [{ id := id1, name := .preprocess_data, args := a }]).updates.processed_df_json
          = some dfOut) ∧
    (∀ (env : ToolEnv) (s : AgentState) (t news id1 : String),
        t ≠ "" →
        env.fetch_recent_news_logic t (pyOr3 none s.company_name t) = Except.ok news →
        (execBatch env s
            [{ id := id1, name := .get_stock_news, args := { ticker := some t } }]).updates.ticker
          = some t) ∧
    (∀ (env : ToolEnv) (s : AgentState) (news id1 : String),
        s.ticker ≠ "" →
        env.fetch_recent_news_logic s.ticker (pyOr3 none s.company_name s.ticker) = Except.ok news →
        (execBatch env s
            [{ id := id1, name := .get_stock_news, args := { ticker := none } }]).updates.ticker
          = some s.ticker) := by
  refine ⟨?_, ?_, ?_, ?_⟩
  · intro env s t dfNew dfOut id1 id2 a2 h1 h2
    simp [execBatch, execOne, runBranch, h1, h2]
  · intro env s dfOld dfOut id1 a h1 h2
    simp [execBatch, execOne, runBranch, h1, h2]
  · intro env s t news id1 ht hn
    simp [execBatch, execOne, runBranch, pyOrOpt, ht, hn]
  · intro env s news id1 ht hn
    simp [execBatch, execOne, runBranch, pyOrOpt, ht, hn]

/-- C5 witness for the amended statement: a concrete fetch-then-preprocess
batch uses the dataset fetched in the same batch. -/
theorem C5_resolution_priority_amended_witness :
    (execBatch testEnv stBatch1 tcsBatch1).updates.processed_df_json
      = some { testDf with
                columns := testDf.columns ++ ["revenuePerShare_YoY_Growth", "earningsYield"] } :=
  C5_resolution_priority_amended.1 testEnv stBatch1 "XOM" testDf _ "call_f1" "call_p1" {} rfl rfl

/-- C6: with no error set, the batch complete (every request already has a
ToolMessage in the log) and the last message a ToolMessage, the router picks
the next node by the name of the LAST request of the triggering decision,
following the fixed mapping `finalizerFor` (risk → risk finalizer; the three
chart producers → chart finalizer; the two table displays → table finalizer;
news → news finalizer; profile → profile finalizer; intermediate tools →
back to the decision engine). -/
theorem C6_router_finalizer_mapping (s : AgentState) (tcs : List ToolCall) (tc : ToolCall)
    (herr : s.error = "")
    (hlast : ∃ cid c, s.messages.getLast? = some (Message.tool cid c))
    (hai : lastAIToolCalls s.messages = some tcs)
    (hdone : tcs.length ≤ (s.messages.filter Message.isToolMessage).length)
    (htc : tcs.getLast? = some tc) :
    router s = Except.ok (finalizerFor tc.name) := by
  obtain ⟨cid, c, hl⟩ := hlast
  unfold router
  rw [if_neg (by simp [herr])]
  simp only [hl, hai, htc]
  rw [if_neg (Nat.not_lt.mpr hdone)]
  cases tc.name <;> rfl

/-- C6 witness: a completed fetch/preprocess/analyze batch routes to the risk
finalizer. -/
theorem C6_router_finalizer_mapping_witness :
    router stBatch6 = Except.ok (finalizerFor ToolName.analyze_risks) :=
  C6_router_finalizer_mapping stBatch6 tcsBatch6
    { id := "call_r6", name := .analyze_risks, args := {} }
    rfl ⟨"call_r6", hiRiskVerdict, rfl⟩ rfl (by decide) rfl

/-- C7 counterexample: when the decision engine answers directly (an
AIMessage with no tool calls, no error), the graph transitions from the
`agent` node straight to END — the turn ends at a node that is not the
state cleaner, so the cleaner does NOT run on every path. -/
theorem C7_cleanup_before_end_cex :
    graphStep stDirect GNode.agent = Except.ok GNode.stop ∧
    GNode.agent ≠ GNode.cleanup_state := by
  exact ⟨rfl, by decide⟩

/-- C7 amended: the state cleaner runs immediately before END on every path
that passes through a finalizer or the error handler (each of those nodes has
a static edge into `cleanup_state`, whose only edge is END) — but on the
direct-answer path (router returns END from the `agent` node) the graph ends
immediately, bypassing the cleaner. -/
theorem C7_cleanup_before_end_amended :
    (∀ s : AgentState,
      graphStep s GNode.generate_final_response = Except.ok GNode.cleanup_state ∧
      graphStep s GNode.prepare_data_display = Except.ok GNode.cleanup_state ∧
      graphStep s GNode.prepare_chart_display = Except.ok GNode.cleanup_state ∧
      graphStep s GNode.prepare_news_display = Except.ok GNode.cleanup_state ∧
      graphStep s GNode.prepare_profile_display = Except.ok GNode.cleanup_state ∧
      graphStep s GNode.handle_error = Except.ok GNode.cleanup_state ∧
      graphStep s GNode.cleanup_state = Except.ok GNode.stop) ∧
    (∀ s : AgentState, router s = Except.ok GNode.stop →
      graphStep s GNode.agent = Except.ok GNode.stop) := by
  constructor
  · intro s
    exact ⟨rfl, rfl, rfl, rfl, rfl, rfl, rfl⟩
  · intro s h
    unfold graphStep
    rw [h]
    rfl

/-- C7 amended witness: the direct-answer state ends the turn from `agent`
without passing through the cleaner. -/
theorem C7_cleanup_before_end_amended_witness :
    graphStep stDirect GNode.agent = Except.ok GNode.stop :=
  C7_cleanup_before_end_amended.2 stDirect rfl

/-- C8: applying the state cleaner empties exactly the three ephemeral fields
(`analysis`, `plotly_json`, `error`), preserves `ticker`, `tickers`,
`company_name`, both dataset references, and the message log, and is
idempotent. -/
theorem C8_cleanup_clears_ephemeral_idempotent (s : AgentState) :
    (applyUpdates s (cleanup_state_node s)).analysis = "" ∧
    (applyUpdates s (cleanup_state_node s)).plotly_json = "" ∧
    (applyUpdates s (cleanup_state_node s)).error = "" ∧
    (applyUpdates s (cleanup_state_node s)).ticker = s.ticker ∧
    (applyUpdates s (cleanup_state_node s)).tickers = s.tickers ∧
    (applyUpdates s (cleanup_state_node s)).company_name = s.company_name ∧
    (applyUpdates s (cleanup_state_node s)).fetched_df_json = s.fetched_df_json ∧
    (applyUpdates s (cleanup_state_node s)).processed_df_json = s.processed_df_json ∧
    (applyUpdates s (cleanup_state_node s)).messages = s.messages ∧
    applyUpdates (applyUpdates s (cleanup_state_node s))
        (cleanup_state_node (applyUpdates s (cleanup_state_node s)))
      = applyUpdates s (cleanup_state_node s) := by
  refine ⟨rfl, rfl, rfl, rfl, rfl, rfl, ?_, ?_, ?_, ?_⟩
  · simp [applyUpdates, cleanup_state_node]
  · simp [applyUpdates, cleanup_state_node]
  · simp [applyUpdates, cleanup_state_node]
  · simp [applyUpdates, cleanup_state_node]

theorem strContains_append_left (a b n : String) (h : strContains a n) :
    strContains (a ++ b) n := by
  obtain ⟨p, q, hpq⟩ := h
  refine ⟨p, q ++ b.data, ?_⟩
  rw [String.data_append, ← hpq]
  simp [List.append_assoc]

/-- The final content is always the verdict text followed by one of the
chart-section suffixes (possibly empty). -/
theorem final_content_split (s : AgentState) :
    ∃ t : String, (generate_final_response_node s).content =
      riskVerdictText (displayTicker s) (displayAnalysis s)
        (latestYears s.processed_df_json).1 (latestYears s.processed_df_json).2 ++ t :=
  ⟨(chartSection (displayTicker s) s.processed_df_json).1, rfl⟩

/-- C9: for a HighRisk verdict where the latest fiscal-year
label is "2022", the produced message references both "2022" and "2023"; and
for any verdict value outside {HighRisk, NoExtremeRisk} the (total, hence
never-raising) finalizer produces the defensive "résultat ... pas pu être
interprété" message as the head of its content. -/
theorem C9_risk_finalizer_verdict :
    (∀ (s : AgentState) (df : Df),
        s.analysis = hiRiskVerdict →
        s.processed_df_json = some df →
        df.isEmpty = false →
        df.columns.contains "calendarYear" = true →
        df.calendarYear.getLast? = some "2022" →
        strContains (generate_final_response_node s).content "2022" ∧
        strContains (generate_final_response_node s).content "2023") ∧
    (∀ s : AgentState,
        s.analysis ≠ hiRiskVerdict → s.analysis ≠ noRiskVerdict →
        ∃ t, (generate_final_response_node s).content
          = uninterpretableText (displayTicker s) ++ t) := by
  constructor
  · intro s df ha hp hemp hcol hlast
    have hy : latestYears s.processed_df_json = ("2022", "2023") := by
      rw [hp]
      simp only [latestYears]
      rw [hemp, hcol, hlast]
      decide
    have hda : displayAnalysis s = hiRiskVerdict := by
      unfold displayAnalysis
      rw [ha]
      rw [if_neg (by decide)]
    obtain ⟨t, ht⟩ := final_content_split s
    rw [ht, hy]
    have hbase :
        strContains (riskVerdictText (displayTicker s) (displayAnalysis s) "2022" "2023") "2022" ∧
        strContains (riskVerdictText (displayTicker s) (displayAnalysis s) "2022" "2023") "2023" := by
      unfold riskVerdictText
      rw [if_pos hda]
      constructor
      · refine ⟨hiRiskSegA.data ++ (displayTicker s).toUpper.data ++ hiRiskSegB.data,
               hiRiskSegC.data ++ "2023".data ++ hiRiskSegD.data, ?_⟩
        simp [List.append_assoc]
      · refine ⟨hiRiskSegA.data ++ (displayTicker s).toUpper.data ++ hiRiskSegB.data ++
                 "2022".data ++ hiRiskSegC.data, hiRiskSegD.data, ?_⟩
        simp [List.append_assoc]
    exact ⟨strContains_append_left _ t _ hbase.1, strContains_append_left _ t _ hbase.2⟩
  · intro s h1 h2
    have hda1 : displayAnalysis s ≠ hiRiskVerdict := by
      unfold displayAnalysis
      by_cases hz : s.analysis = ""
      · rw [if_pos hz]; decide
      · rw [if_neg hz]; exact h1
    have hda2 : displayAnalysis s ≠ noRiskVerdict := by
      unfold displayAnalysis
      by_cases hz : s.analysis = ""
      · rw [if_pos hz]; decide
      · rw [if_neg hz]; exact h2
    obtain ⟨t, ht⟩ := final_content_split s
    refine ⟨t, ?_⟩
    rw [ht]
    unfold riskVerdictText
    rw [if_neg hda1, if_neg hda2]

/-- C9 witness: the concrete high-risk state over `dfRisk` (latest year 2022)
mentions both years; a concrete out-of-domain verdict yields the defensive
message. -/
theorem C9_risk_finalizer_verdict_witness :
    (strContains (generate_final_response_node stRisk).content "2022" ∧
     strContains (generate_final_response_node stRisk).content "2023") ∧
    (∃ t, (generate_final_response_node stBadVerdict).content
      = uninterpretableText (displayTicker stBadVerdict) ++ t) :=
  ⟨C9_risk_finalizer_verdict.1 stRisk dfRisk rfl rfl (by decide) (by decide) rfl,
   C9_risk_finalizer_verdict.2 stBadVerdict (by decide) (by decide)⟩

theorem string_append_ne_left (a b : String) (hb : b ≠ "") : a ++ b ≠ a := by
  intro h
  apply hb
  have hd := congrArg String.data h
  rw [String.data_append] at hd
  have hlen := congrArg List.length hd
  rw [List.length_append] at hlen
  have hb0 : b.data.length = 0 := by omega
  have hbd : b.data = [] := List.length_eq_zero.mp hb0
  cases b
  cases hbd
  rfl

/-- C10 counterexample: with the `earningsYield` series missing, the chart is
indeed skipped, but the skip is NOT silent — the produced message is the
verdict text WITH an extra "(Impossible de générer le graphique ...)" remark
appended, so it is not exactly the verdict text. -/
theorem C10_missing_series_cex :
    (generate_final_response_node stNoYield).plotly_json = none ∧
    (generate_final_response_node stNoYield).content ≠
      riskVerdictText (displayTicker stNoYield) (displayAnalysis stNoYield)
        (latestYears stNoYield.processed_df_json).1
        (latestYears stNoYield.processed_df_json).2 := by
  constructor
  · rfl
  · intro h
    have hs : chartSection (displayTicker stNoYield) stNoYield.processed_df_json
        = (missingChartRemark, none) := rfl
    have hc : (generate_final_response_node stNoYield).content
        = riskVerdictText (displayTicker stNoYield) (displayAnalysis stNoYield)
            (latestYears stNoYield.processed_df_json).1
            (latestYears stNoYield.processed_df_json).2 ++ missingChartRemark := by
      show riskVerdictText (displayTicker stNoYield) (displayAnalysis stNoYield)
            (latestYears stNoYield.processed_df_json).1
            (latestYears stNoYield.processed_df_json).2
          ++ (chartSection (displayTicker stNoYield) stNoYield.processed_df_json).1 = _
      rw [hs]
    rw [hc] at h
    exact string_append_ne_left _ _ (by decide) h

/-- C10 amended: whenever the processed dataset lacks either of the two
derived series, the finalizer attaches no chart and produces exactly the
verdict text followed by the fixed missing-chart remark (rather than the bare
verdict text). -/
theorem C10_missing_series_amended (s : AgentState) (df : Df)
    (hp : s.processed_df_json = some df)
    (hmiss : df.columns.contains "revenuePerShare_YoY_Growth" = false ∨
             df.columns.contains "earningsYield" = false) :
    (generate_final_response_node s).plotly_json = none ∧
    (generate_final_response_node s).content =
      riskVerdictText (displayTicker s) (displayAnalysis s)
        (latestYears s.processed_df_json).1 (latestYears s.processed_df_json).2
        ++ missingChartRemark := by
  have hcc : chartColsOk df = false := by
    simp only [chartColsOk, metricsToPlot, List.all_cons, List.all_nil, Bool.and_true]
    rcases hmiss with h | h <;>
      simp only [h, Bool.and_false, Bool.false_and, Bool.and_true]
  have hsec : chartSection (displayTicker s) s.processed_df_json
      = (missingChartRemark, none) := by
    rw [hp]
    simp only [chartSection]
    rw [if_neg (by simp [hcc])]
  constructor
  · show (chartSection (displayTicker s) s.processed_df_json).2 = none
    rw [hsec]
  · show riskVerdictText (displayTicker s) (displayAnalysis s)
        (latestYears s.processed_df_json).1 (latestYears s.processed_df_json).2
        ++ (chartSection (displayTicker s) s.processed_df_json).1 = _
    rw [hsec]

/-- C10 amended witness: the concrete dataset without `earningsYield` keeps
the verdict text, appends the remark, and attaches no chart. -/
theorem C10_missing_series_amended_witness :
    (generate_final_response_node stNoYield).plotly_json = none ∧
    (generate_final_response_node stNoYield).content =
      riskVerdictText (displayTicker stNoYield) (displayAnalysis stNoYield)
        (latestYears stNoYield.processed_df_json).1
        (latestYears stNoYield.processed_df_json).2
        ++ missingChartRemark :=
  C10_missing_series_amended stNoYield dfNoYield rfl (Or.inr (by decide))
